import Mathlib

/-!
Shallow embedding of the architect professional-indemnity rating engine
(`architect_rater.py`).  Monetary amounts, percentages and factors are
modelled as rationals (the engine's arithmetic is exact real arithmetic on
the table entries); Python dictionaries become association lists; a lookup
that would raise `KeyError` becomes `Option.none`, propagated through the
pipeline, so `calculate_architect_premium` returns `Option RatingResult`.
-/

/-- Base rate: `ARCHITECT_BASE_RATE = 0.01`. -/
def ARCHITECT_BASE_RATE : ℚ := 1/100

/-- Discipline risk multipliers, `ARCHITECT_DISCIPLINES` (17 entries). -/
def ARCHITECT_DISCIPLINES : List (String × ℚ) :=
  [("Architectural Work - New Build", 2),
   ("Architectural Work - Non-Structural Refurb", 1),
   ("Architectural Consultancy", 1),
   ("Aborted Work", 5/10),
   ("Acoustic", 1),
   ("Building Surveying", 25/10),
   ("CDM/Planning Supervision", 5/10),
   ("Expert Witness", 5/10),
   ("Feasibility Studies", 5/10),
   ("Interior Design", 5/10),
   ("Landscape Architecture", 5/10),
   ("Other Surveys", 3),
   ("Project Co-ordination", 15/10),
   ("Project Management", 2),
   ("Quantity Surveying", 75/100),
   ("Town Planning", 5/10),
   ("Other Work", 1)]

/-- Fee size discount brackets `FEE_SIZE_DISCOUNTS`: pairs
(inclusive upper bound, discount); `none` stands for the float
infinity bound of the last bracket. -/
def FEE_SIZE_DISCOUNTS : List (Option ℚ × ℚ) :=
  [(some 100000, 0),
   (some 200000, 5/100),
   (some 300000, 10/100),
   (some 500000, 15/100),
   (some 750000, 20/100),
   (some 1000000, 22/100),
   (none, 25/100)]

/-- Limit of indemnity factors `LIMIT_OF_INDEMNITY_FACTORS`. -/
def LIMIT_OF_INDEMNITY_FACTORS : List (ℚ × ℚ) :=
  [(100000, 40/100),
   (250000, 50/100),
   (500000, 76/100),
   (750000, 90/100),
   (1000000, 1),
   (2000000, 130/100),
   (3000000, 145/100),
   (4000000, 157/100),
   (5000000, 165/100)]

/-- No claims discount schedule `NO_CLAIMS_DISCOUNTS`. -/
def NO_CLAIMS_DISCOUNTS : List (String × ℚ) :=
  [("0-3 years", 0),
   ("3-5 years", 10/100),
   ("5-10 years", 20/100),
   ("10+ years", 30/100)]

/-- Retroactive date discount schedule `RETROACTIVE_DISCOUNTS`. -/
def RETROACTIVE_DISCOUNTS : List (String × ℚ) :=
  [("Inception", 25/100),
   ("After 12 months", 10/100),
   ("2+ years coverage", 0)]

/-- Excess multiplier schedule `EXCESS_MULTIPLIERS`; only the
`discount` field of each entry is used by the engine (the `description`
strings are display-only and omitted). -/
def EXCESS_MULTIPLIERS : List (ℚ × ℚ) :=
  [(50/100, -25/100),
   (75/100, -10/100),
   (1, 0),
   (2, 8/100),
   (3, 15/100),
   (4, 20/100),
   (5, 23/100)]

/-- Aggregate excess options `AGGREGATE_EXCESS_OPTIONS`; only the
`discount` field of each entry is used by the engine. -/
def AGGREGATE_EXCESS_OPTIONS : List (String × ℚ) :=
  [("standard", 0),
   ("agg_cap_no_thereafter", 15/100),
   ("agg_cap_reduced_thereafter", 10/100)]

/-- Association-list lookup with propositional key equality, modelling a
Python dictionary subscript `d[key]` (`some` hit, `none` for `KeyError`)
and the membership test `key in d`. -/
def dictLookup {α β : Type} [DecidableEq α] (key : α) : List (α × β) → Option β
  | [] => none
  | (k, v) :: rest => if key = k then some v else dictLookup key rest

/-- Comparison `fee_income <= threshold` of the bracket scan, where the
threshold may be the float infinity (modelled by `none`). -/
def leThresh (f : ℚ) : Option ℚ → Bool
  | none => true
  | some t => decide (f ≤ t)

/-- The `for threshold, discount in FEE_SIZE_DISCOUNTS` loop of
`get_fee_size_discount`: return the discount of the first bracket whose
bound admits `f`, else fall through to the final `return 0.25`. -/
def feeDiscountLoop (f : ℚ) : List (Option ℚ × ℚ) → ℚ
  | [] => 25/100
  | (t, d) :: rest => if leThresh f t then d else feeDiscountLoop f rest

/-- `get_fee_size_discount(fee_income)`. -/
def get_fee_size_discount (fee_income : ℚ) : ℚ :=
  feeDiscountLoop fee_income FEE_SIZE_DISCOUNTS

/-- `get_limit_factor(limit_of_indemnity)`: table value when the limit is
a key of `LIMIT_OF_INDEMNITY_FACTORS`, else the £1M baseline factor 1.00
(after emitting a warning, see `limit_warning_issued`). -/
def get_limit_factor (limit_of_indemnity : ℚ) : ℚ :=
  match dictLookup limit_of_indemnity LIMIT_OF_INDEMNITY_FACTORS with
  | some v => v
  | none => 1

/-- Whether `get_limit_factor` takes its `else` branch, i.e. calls
`st.warning` to signal that a non-standard limit was substituted. -/
def limit_warning_issued (limit_of_indemnity : ℚ) : Bool :=
  (dictLookup limit_of_indemnity LIMIT_OF_INDEMNITY_FACTORS).isNone

/-- Rounding of Python's built-in `round`: nearest integer, ties to the
even neighbour (banker's rounding), as used on `raw_excess / 500`. -/
def pyRound (q : ℚ) : ℤ :=
  if q - ⌊q⌋ < 1/2 then ⌊q⌋
  else if 1/2 < q - ⌊q⌋ then ⌊q⌋ + 1
  else if ⌊q⌋ % 2 = 0 then ⌊q⌋ else ⌊q⌋ + 1

/-- `calculate_standard_excess(fee_income)`: 0.5% of fee income, rounded
to the nearest £500, with a £500 minimum. -/
def calculate_standard_excess (fee_income : ℚ) : ℚ :=
  let raw_excess : ℚ := fee_income * (5/1000)
  let rounded_excess : ℚ := (pyRound (raw_excess / 500) : ℚ) * 500
  max rounded_excess 500

/-- Step 2 loop of `calculate_architect_premium`: accumulate
`factor * (percentage / 100)` over the entries with positive percentage,
in dictionary order; an entry with positive percentage whose discipline
is not a key of `ARCHITECT_DISCIPLINES` raises `KeyError` (`none`). -/
def discipline_fold (acc : ℚ) : List (String × ℚ) → Option ℚ
  | [] => some acc
  | (discipline, percentage) :: rest =>
    if 0 < percentage then
      match dictLookup discipline ARCHITECT_DISCIPLINES with
      | some factor => discipline_fold (acc + factor * (percentage / 100)) rest
      | none => none
    else discipline_fold acc rest

/-- The result dictionary returned by `calculate_architect_premium`. -/
structure RatingResult where
  fee_income : ℚ
  base_premium : ℚ
  discipline_factor : ℚ
  premium_after_disciplines : ℚ
  fee_size_discount : ℚ
  premium_after_fee_discount : ℚ
  limit_factor : ℚ
  premium_after_limit : ℚ
  no_claims_discount : ℚ
  premium_after_no_claims : ℚ
  retroactive_discount : ℚ
  premium_after_retro : ℚ
  excess_discount : ℚ
  premium_after_excess : ℚ
  aggregate_excess_discount : ℚ
  premium_after_agg_excess : ℚ
  underwriter_discretion_factor : ℚ
  final_premium : ℚ
  standard_excess : ℚ
  actual_excess : ℚ
  limit_of_indemnity : ℚ
  deriving DecidableEq

/-- `calculate_architect_premium`, the nine-step pipeline.  A `KeyError`
from any of the dictionary subscripts (`ARCHITECT_DISCIPLINES[...]`,
`NO_CLAIMS_DISCOUNTS[...]`, `RETROACTIVE_DISCOUNTS[...]`,
`EXCESS_MULTIPLIERS[...]`, `AGGREGATE_EXCESS_OPTIONS[...]`) is `none`. -/
def calculate_architect_premium (fee_income : ℚ)
    (discipline_percentages : List (String × ℚ))
    (limit_of_indemnity : ℚ)
    (no_claims_period : String)
    (retroactive_coverage : String)
    (excess_multiplier : ℚ)
    (aggregate_excess_option : String)
    (underwriter_discretion_factor : ℚ) : Option RatingResult :=
  let base_premium := fee_income * ARCHITECT_BASE_RATE
  (discipline_fold 0 discipline_percentages).bind fun total_discipline_factor =>
  let premium_after_disciplines := base_premium * total_discipline_factor
  let fee_discount := get_fee_size_discount fee_income
  let premium_after_fee_discount := premium_after_disciplines * (1 - fee_discount)
  let limit_factor := get_limit_factor limit_of_indemnity
  let premium_after_limit := premium_after_fee_discount * limit_factor
  (dictLookup no_claims_period NO_CLAIMS_DISCOUNTS).bind fun no_claims_discount =>
  let premium_after_no_claims := premium_after_limit * (1 - no_claims_discount)
  (dictLookup retroactive_coverage RETROACTIVE_DISCOUNTS).bind fun retro_discount =>
  let premium_after_retro := premium_after_no_claims * (1 - retro_discount)
  (dictLookup excess_multiplier EXCESS_MULTIPLIERS).bind fun excess_discount =>
  let premium_after_excess := premium_after_retro * (1 - excess_discount)
  (dictLookup aggregate_excess_option AGGREGATE_EXCESS_OPTIONS).bind fun agg_excess_discount =>
  let premium_after_agg_excess := premium_after_excess * (1 - agg_excess_discount)
  let final_premium := premium_after_agg_excess * underwriter_discretion_factor
  let standard_excess := calculate_standard_excess fee_income
  let actual_excess := standard_excess * excess_multiplier
  some {
    fee_income := fee_income
    base_premium := base_premium
    discipline_factor := total_discipline_factor
    premium_after_disciplines := premium_after_disciplines
    fee_size_discount := fee_discount
    premium_after_fee_discount := premium_after_fee_discount
    limit_factor := limit_factor
    premium_after_limit := premium_after_limit
    no_claims_discount := no_claims_discount
    premium_after_no_claims := premium_after_no_claims
    retroactive_discount := retro_discount
    premium_after_retro := premium_after_retro
    excess_discount := excess_discount
    premium_after_excess := premium_after_excess
    aggregate_excess_discount := agg_excess_discount
    premium_after_agg_excess := premium_after_agg_excess
    underwriter_discretion_factor := underwriter_discretion_factor
    final_premium := final_premium
    standard_excess := standard_excess
    actual_excess := actual_excess
    limit_of_indemnity := limit_of_indemnity }

/-! ### Concrete evaluations of the engine -/

/-- Result of the baseline scenario: fee income 250,000, the single
discipline "Architectural Work - New Build" at 100%, limit 1,000,000,
tiers "0-3 years" / "2+ years coverage", excess multiplier 1, aggregate
option "standard", discretion 1. -/
def baselineResult : RatingResult :=
  { fee_income := 250000, base_premium := 2500, discipline_factor := 2,
    premium_after_disciplines := 5000, fee_size_discount := 10/100,
    premium_after_fee_discount := 4500, limit_factor := 1,
    premium_after_limit := 4500, no_claims_discount := 0,
    premium_after_no_claims := 4500, retroactive_discount := 0,
    premium_after_retro := 4500, excess_discount := 0,
    premium_after_excess := 4500, aggregate_excess_discount := 0,
    premium_after_agg_excess := 4500, underwriter_discretion_factor := 1,
    final_premium := 4500, standard_excess := 1000, actual_excess := 1000,
    limit_of_indemnity := 1000000 }

theorem eval_baseline :
    calculate_architect_premium 250000 [("Architectural Work - New Build", 100)]
      1000000 "0-3 years" "2+ years coverage" 1 "standard" 1 = some baselineResult := by
  simp only [calculate_architect_premium, discipline_fold, ARCHITECT_DISCIPLINES,
    get_fee_size_discount, FEE_SIZE_DISCOUNTS, feeDiscountLoop, leThresh,
    get_limit_factor, LIMIT_OF_INDEMNITY_FACTORS, NO_CLAIMS_DISCOUNTS,
    RETROACTIVE_DISCOUNTS, EXCESS_MULTIPLIERS, AGGREGATE_EXCESS_OPTIONS,
    calculate_standard_excess, pyRound, max_def, dictLookup, String.reduceEq,
    reduceIte, Option.some_bind, baselineResult]
  norm_num [ARCHITECT_BASE_RATE]

/-- Result of the baseline scenario with underwriter discretion factor 2
instead of 1. -/
def baselineResultTwice : RatingResult :=
  { baselineResult with underwriter_discretion_factor := 2, final_premium := 9000 }

theorem eval_baseline_twice :
    calculate_architect_premium 250000 [("Architectural Work - New Build", 100)]
      1000000 "0-3 years" "2+ years coverage" 1 "standard" 2 = some baselineResultTwice := by
  simp only [calculate_architect_premium, discipline_fold, ARCHITECT_DISCIPLINES,
    get_fee_size_discount, FEE_SIZE_DISCOUNTS, feeDiscountLoop, leThresh,
    get_limit_factor, LIMIT_OF_INDEMNITY_FACTORS, NO_CLAIMS_DISCOUNTS,
    RETROACTIVE_DISCOUNTS, EXCESS_MULTIPLIERS, AGGREGATE_EXCESS_OPTIONS,
    calculate_standard_excess, pyRound, max_def, dictLookup, String.reduceEq,
    reduceIte, Option.some_bind, baselineResult, baselineResultTwice]
  norm_num [ARCHITECT_BASE_RATE]

/-- C1: corrected.  The spec's baseline scenario claims a fee-size
discount of 0.05, a premium of 4,750 and a standard excess of 1,250 at
fee income 250,000; the code puts 250,000 in the 200k-300k bracket
(discount 0.10, premium 4,500) and rounds `round(1250/500) = round(2.5)`
to the even neighbour 2, giving a standard excess of 1,000. -/
theorem C1_counterexample :
    (calculate_architect_premium 250000 [("Architectural Work - New Build", 100)]
        1000000 "0-3 years" "2+ years coverage" 1 "standard" 1).map
        RatingResult.fee_size_discount ≠ some (5/100) ∧
    (calculate_architect_premium 250000 [("Architectural Work - New Build", 100)]
        1000000 "0-3 years" "2+ years coverage" 1 "standard" 1).map
        RatingResult.final_premium ≠ some 4750 ∧
    (calculate_architect_premium 250000 [("Architectural Work - New Build", 100)]
        1000000 "0-3 years" "2+ years coverage" 1 "standard" 1).map
        RatingResult.standard_excess ≠ some 1250 := by
  rw [eval_baseline]
  norm_num [baselineResult]

/-- C1 (amended): the baseline input yields discipline factor 2.0, base
premium 2,500, premium after disciplines 5,000, fee-size discount 0.10
giving premium 4,500, limit factor 1.00, all remaining discounts 0,
final premium 4,500, standard excess 1,000 and actual excess 1,000. -/
theorem C1_baseline_scenario :
    calculate_architect_premium 250000 [("Architectural Work - New Build", 100)]
      1000000 "0-3 years" "2+ years coverage" 1 "standard" 1 =
    some { fee_income := 250000, base_premium := 2500, discipline_factor := 2,
           premium_after_disciplines := 5000, fee_size_discount := 10/100,
           premium_after_fee_discount := 4500, limit_factor := 1,
           premium_after_limit := 4500, no_claims_discount := 0,
           premium_after_no_claims := 4500, retroactive_discount := 0,
           premium_after_retro := 4500, excess_discount := 0,
           premium_after_excess := 4500, aggregate_excess_discount := 0,
           premium_after_agg_excess := 4500, underwriter_discretion_factor := 1,
           final_premium := 4500, standard_excess := 1000, actual_excess := 1000,
           limit_of_indemnity := 1000000 } :=
  eval_baseline

/-- C2: corrected.  An input whose discipline percentages sum to 90 is
not rejected: the engine returns a result. -/
theorem C2_counterexample :
    (calculate_architect_premium 250000 [("Architectural Work - New Build", 90)]
        1000000 "0-3 years" "2+ years coverage" 1 "standard" 1).isSome = true := by
  simp only [calculate_architect_premium, discipline_fold, ARCHITECT_DISCIPLINES,
    get_fee_size_discount, FEE_SIZE_DISCOUNTS, feeDiscountLoop, leThresh,
    get_limit_factor, LIMIT_OF_INDEMNITY_FACTORS, NO_CLAIMS_DISCOUNTS,
    RETROACTIVE_DISCOUNTS, EXCESS_MULTIPLIERS, AGGREGATE_EXCESS_OPTIONS,
    calculate_standard_excess, pyRound, max_def, dictLookup, String.reduceEq,
    reduceIte, Option.some_bind]
  norm_num

/-- C2 (amended): the engine does not check that discipline percentages
are normalized; for percentages summing to 90 it silently computes a
premium from the deflated discipline factor 1.8 (the sum-to-100 check
lives only in the UI caller, which refuses to invoke the engine when the
total differs from 100). -/
theorem C2_unnormalized_computes :
    calculate_architect_premium 250000 [("Architectural Work - New Build", 90)]
      1000000 "0-3 years" "2+ years coverage" 1 "standard" 1 =
    some { fee_income := 250000, base_premium := 2500, discipline_factor := 18/10,
           premium_after_disciplines := 4500, fee_size_discount := 10/100,
           premium_after_fee_discount := 4050, limit_factor := 1,
           premium_after_limit := 4050, no_claims_discount := 0,
           premium_after_no_claims := 4050, retroactive_discount := 0,
           premium_after_retro := 4050, excess_discount := 0,
           premium_after_excess := 4050, aggregate_excess_discount := 0,
           premium_after_agg_excess := 4050, underwriter_discretion_factor := 1,
           final_premium := 4050, standard_excess := 1000, actual_excess := 1000,
           limit_of_indemnity := 1000000 } := by
  simp only [calculate_architect_premium, discipline_fold, ARCHITECT_DISCIPLINES,
    get_fee_size_discount, FEE_SIZE_DISCOUNTS, feeDiscountLoop, leThresh,
    get_limit_factor, LIMIT_OF_INDEMNITY_FACTORS, NO_CLAIMS_DISCOUNTS,
    RETROACTIVE_DISCOUNTS, EXCESS_MULTIPLIERS, AGGREGATE_EXCESS_OPTIONS,
    calculate_standard_excess, pyRound, max_def, dictLookup, String.reduceEq,
    reduceIte, Option.some_bind]
  norm_num [ARCHITECT_BASE_RATE]

/-! ### Standard excess -/

theorem max_intCast_mul_500 (n : ℤ) :
    max ((n : ℚ) * 500) 500 = ((max n 1 : ℤ) : ℚ) * 500 := by
  rcases le_total n 1 with h | h
  · have h' : (n : ℚ) * 500 ≤ 500 := by
      have : (n : ℚ) ≤ 1 := by exact_mod_cast h
      nlinarith
    rw [max_eq_right h', max_eq_right h]
    norm_num
  · have h' : (500 : ℚ) ≤ (n : ℚ) * 500 := by
      have : (1 : ℚ) ≤ (n : ℚ) := by exact_mod_cast h
      nlinarith
    rw [max_eq_left h', max_eq_left h]

/-- C3: `calculate_standard_excess` is literally the claimed formula,
is at least 500, and is an integer multiple of 500. -/
theorem C3_standard_excess_props (f : ℚ) (_hf : 0 ≤ f) :
    calculate_standard_excess f =
      max ((pyRound (f * (5/1000) / 500) : ℚ) * 500) 500 ∧
    500 ≤ calculate_standard_excess f ∧
    ∃ k : ℤ, calculate_standard_excess f = (k : ℚ) * 500 := by
  refine ⟨rfl, le_max_right _ _, max (pyRound (f * (5/1000) / 500)) 1, ?_⟩
  exact max_intCast_mul_500 _

theorem C3_standard_excess_props_witness :
    0 ≤ (250000 : ℚ) ∧
    (calculate_standard_excess 250000 =
      max ((pyRound ((250000 : ℚ) * (5/1000) / 500) : ℚ) * 500) 500 ∧
    500 ≤ calculate_standard_excess 250000 ∧
    ∃ k : ℤ, calculate_standard_excess 250000 = (k : ℚ) * 500) :=
  ⟨by norm_num, C3_standard_excess_props 250000 (by norm_num)⟩

/-! ### Non-positive fee income -/

theorem pyRound_nonpos {q : ℚ} (h : q ≤ 0) : pyRound q ≤ 0 := by
  unfold pyRound
  have hfl : ⌊q⌋ ≤ 0 := by
    have := Int.floor_le_floor h
    simpa using this
  have hfq : (⌊q⌋ : ℚ) ≤ q := Int.floor_le q
  split_ifs with h1 h2 h3
  · exact hfl
  · have hlt : (⌊q⌋ : ℚ) < -(1/2) := by linarith
    have hlt0 : (⌊q⌋ : ℚ) < 0 := hlt.trans_le (by norm_num)
    have : ⌊q⌋ < 0 := by exact_mod_cast hlt0
    omega
  · exact hfl
  · have heq : q - ⌊q⌋ = 1/2 := le_antisymm (not_lt.mp h2) (not_lt.mp h1)
    have hlt : (⌊q⌋ : ℚ) ≤ -(1/2) := by linarith
    have : ⌊q⌋ < 0 := by
      by_contra hc
      push_neg at hc
      have : (0 : ℚ) ≤ (⌊q⌋ : ℚ) := by exact_mod_cast hc
      linarith
    omega

theorem standard_excess_of_nonpos {f : ℚ} (h : f ≤ 0) :
    calculate_standard_excess f = 500 := by
  unfold calculate_standard_excess
  have hq : f * (5/1000) / 500 ≤ 0 := by nlinarith
  have hr : pyRound (f * (5/1000) / 500) ≤ 0 := pyRound_nonpos hq
  have : ((pyRound (f * (5/1000) / 500) : ℤ) : ℚ) * 500 ≤ 500 := by
    have : ((pyRound (f * (5/1000) / 500) : ℤ) : ℚ) ≤ 0 := by exact_mod_cast hr
    nlinarith
  simpa using max_eq_right this

/-- C7: corrected.  Fee income 0 is not rejected: the engine computes
a full result (with all premium stages equal to 0 and the standard
excess floored at 500). -/
theorem C7_counterexample :
    (calculate_architect_premium 0 [("Architectural Work - New Build", 100)]
        1000000 "0-3 years" "2+ years coverage" 1 "standard" 1).isSome = true := by
  simp only [calculate_architect_premium, discipline_fold, ARCHITECT_DISCIPLINES,
    get_fee_size_discount, FEE_SIZE_DISCOUNTS, feeDiscountLoop, leThresh,
    get_limit_factor, LIMIT_OF_INDEMNITY_FACTORS, NO_CLAIMS_DISCOUNTS,
    RETROACTIVE_DISCOUNTS, EXCESS_MULTIPLIERS, AGGREGATE_EXCESS_OPTIONS,
    calculate_standard_excess, pyRound, max_def, dictLookup, String.reduceEq,
    reduceIte, Option.some_bind]
  norm_num

/-- C7 (amended): the engine performs no fee-income validation; for any
fee income at most 0 it still computes, returning the full pipeline with
every premium stage equal to fee * 0.02 and the standard excess floored
at 500 (the UI's minimum input of 1,000 is the only guard against
non-positive fee income). -/
theorem C7_nonpositive_fee_computes (fee : ℚ) (hfee : fee ≤ 0) :
    calculate_architect_premium fee [("Architectural Work - New Build", 100)]
      1000000 "0-3 years" "2+ years coverage" 1 "standard" 1 =
    some { fee_income := fee, base_premium := fee * (1/100), discipline_factor := 2,
           premium_after_disciplines := fee * (2/100), fee_size_discount := 0,
           premium_after_fee_discount := fee * (2/100), limit_factor := 1,
           premium_after_limit := fee * (2/100), no_claims_discount := 0,
           premium_after_no_claims := fee * (2/100), retroactive_discount := 0,
           premium_after_retro := fee * (2/100), excess_discount := 0,
           premium_after_excess := fee * (2/100), aggregate_excess_discount := 0,
           premium_after_agg_excess := fee * (2/100), underwriter_discretion_factor := 1,
           final_premium := fee * (2/100), standard_excess := 500, actual_excess := 500,
           limit_of_indemnity := 1000000 } := by
  have hfd : get_fee_size_discount fee = 0 := by
    unfold get_fee_size_discount FEE_SIZE_DISCOUNTS feeDiscountLoop
    rw [if_pos]
    simp only [leThresh, decide_eq_true_eq]
    linarith
  have hse := standard_excess_of_nonpos hfee
  simp only [calculate_architect_premium, discipline_fold, ARCHITECT_DISCIPLINES,
    get_limit_factor, LIMIT_OF_INDEMNITY_FACTORS, NO_CLAIMS_DISCOUNTS,
    RETROACTIVE_DISCOUNTS, EXCESS_MULTIPLIERS, AGGREGATE_EXCESS_OPTIONS,
    dictLookup, String.reduceEq, reduceIte, Option.some_bind, hfd, hse]
  norm_num [ARCHITECT_BASE_RATE]
  ring_nf

theorem C7_nonpositive_fee_computes_witness :
    ((-1000 : ℚ) ≤ 0) ∧
    calculate_architect_premium (-1000) [("Architectural Work - New Build", 100)]
      1000000 "0-3 years" "2+ years coverage" 1 "standard" 1 =
    some { fee_income := -1000, base_premium := -1000 * (1/100), discipline_factor := 2,
           premium_after_disciplines := -1000 * (2/100), fee_size_discount := 0,
           premium_after_fee_discount := -1000 * (2/100), limit_factor := 1,
           premium_after_limit := -1000 * (2/100), no_claims_discount := 0,
           premium_after_no_claims := -1000 * (2/100), retroactive_discount := 0,
           premium_after_retro := -1000 * (2/100), excess_discount := 0,
           premium_after_excess := -1000 * (2/100), aggregate_excess_discount := 0,
           premium_after_agg_excess := -1000 * (2/100), underwriter_discretion_factor := 1,
           final_premium := -1000 * (2/100), standard_excess := 500, actual_excess := 500,
           limit_of_indemnity := 1000000 } :=
  ⟨by norm_num, C7_nonpositive_fee_computes (-1000) (by norm_num)⟩

/-! ### Fee size discount -/

/-- Modelled from the spec words for claim C4: the discount of the first
bracket, scanning `FEE_SIZE_DISCOUNTS` in ascending order, whose upper
bound admits the fee income (with the unbounded last bracket admitting
everything); the top-bracket discount if no bracket matches. -/
def feeSizeDiscountSpec (fee_income : ℚ) : ℚ :=
  match FEE_SIZE_DISCOUNTS.find? (fun e => leThresh fee_income e.1) with
  | some e => e.2
  | none => 25/100

theorem get_fee_size_discount_cases (f : ℚ) :
    get_fee_size_discount f =
      if f ≤ 100000 then 0
      else if f ≤ 200000 then 5/100
      else if f ≤ 300000 then 10/100
      else if f ≤ 500000 then 15/100
      else if f ≤ 750000 then 20/100
      else if f ≤ 1000000 then 22/100
      else 25/100 := by
  simp [get_fee_size_discount, FEE_SIZE_DISCOUNTS, feeDiscountLoop, leThresh]

theorem feeSizeDiscountSpec_cases (f : ℚ) :
    feeSizeDiscountSpec f =
      if f ≤ 100000 then 0
      else if f ≤ 200000 then 5/100
      else if f ≤ 300000 then 10/100
      else if f ≤ 500000 then 15/100
      else if f ≤ 750000 then 20/100
      else if f ≤ 1000000 then 22/100
      else 25/100 := by
  by_cases h1 : f ≤ 100000
  · simp [feeSizeDiscountSpec, FEE_SIZE_DISCOUNTS, List.find?, leThresh, h1]
  by_cases h2 : f ≤ 200000
  · simp [feeSizeDiscountSpec, FEE_SIZE_DISCOUNTS, List.find?, leThresh, h1, h2]
  by_cases h3 : f ≤ 300000
  · simp [feeSizeDiscountSpec, FEE_SIZE_DISCOUNTS, List.find?, leThresh, h1, h2, h3]
  by_cases h4 : f ≤ 500000
  · simp [feeSizeDiscountSpec, FEE_SIZE_DISCOUNTS, List.find?, leThresh, h1, h2, h3, h4]
  by_cases h5 : f ≤ 750000
  · simp [feeSizeDiscountSpec, FEE_SIZE_DISCOUNTS, List.find?, leThresh, h1, h2, h3, h4, h5]
  by_cases h6 : f ≤ 1000000
  · simp [feeSizeDiscountSpec, FEE_SIZE_DISCOUNTS, List.find?, leThresh, h1, h2, h3, h4, h5, h6]
  · simp [feeSizeDiscountSpec, FEE_SIZE_DISCOUNTS, List.find?, leThresh, h1, h2, h3, h4, h5, h6]

/-- C4: `get_fee_size_discount` agrees with the first-matching-bracket
description, is non-decreasing, and always lies in [0, 0.25]. -/
theorem C4_fee_size_discount_props (f g : ℚ) (_hf : 0 ≤ f) (hfg : f ≤ g) :
    get_fee_size_discount f = feeSizeDiscountSpec f ∧
    get_fee_size_discount f ≤ get_fee_size_discount g ∧
    0 ≤ get_fee_size_discount f ∧ get_fee_size_discount f ≤ 25/100 := by
  rw [get_fee_size_discount_cases f, get_fee_size_discount_cases g, feeSizeDiscountSpec_cases]
  refine ⟨rfl, ?_, ?_, ?_⟩ <;> split_ifs <;> linarith

theorem C4_fee_size_discount_props_witness :
    (0 ≤ (150000 : ℚ)) ∧ ((150000 : ℚ) ≤ 250000) ∧
    (get_fee_size_discount 150000 = feeSizeDiscountSpec 150000 ∧
     get_fee_size_discount 150000 ≤ get_fee_size_discount 250000 ∧
     0 ≤ get_fee_size_discount 150000 ∧ get_fee_size_discount 150000 ≤ 25/100) :=
  ⟨by norm_num, by norm_num, C4_fee_size_discount_props 150000 250000 (by norm_num) (by norm_num)⟩

/-! ### Limit of indemnity factor -/

theorem dictLookup_eq_none_of_not_mem {α β : Type} [DecidableEq α]
    (key : α) (L : List (α × β)) (h : key ∉ L.map Prod.fst) :
    dictLookup key L = none := by
  induction L with
  | nil => rfl
  | cons p rest ih =>
    obtain ⟨k, v⟩ := p
    simp only [List.map_cons, List.mem_cons, not_or] at h
    simp only [dictLookup, if_neg h.1]
    exact ih h.2

/-- C5: a limit outside the fixed nine-limit set gets the baseline
factor 1.00 together with the substitution warning, and every limit in
the set gets its tabulated factor (1.00 at the 1,000,000 baseline). -/
theorem C5_limit_factor_table (l : ℚ) :
    (l ∉ ([100000, 250000, 500000, 750000, 1000000,
           2000000, 3000000, 4000000, 5000000] : List ℚ) →
      get_limit_factor l = 1 ∧ limit_warning_issued l = true) ∧
    get_limit_factor 100000 = 40/100 ∧ get_limit_factor 250000 = 50/100 ∧
    get_limit_factor 500000 = 76/100 ∧ get_limit_factor 750000 = 90/100 ∧
    get_limit_factor 1000000 = 1 ∧ get_limit_factor 2000000 = 130/100 ∧
    get_limit_factor 3000000 = 145/100 ∧ get_limit_factor 4000000 = 157/100 ∧
    get_limit_factor 5000000 = 165/100 := by
  constructor
  · intro h
    have hnone : dictLookup l LIMIT_OF_INDEMNITY_FACTORS = none := by
      apply dictLookup_eq_none_of_not_mem
      simpa [LIMIT_OF_INDEMNITY_FACTORS] using h
    rw [get_limit_factor, limit_warning_issued, hnone]
    exact ⟨rfl, rfl⟩
  · refine ⟨?_, ?_, ?_, ?_, ?_, ?_, ?_, ?_, ?_⟩ <;>
      norm_num [get_limit_factor, LIMIT_OF_INDEMNITY_FACTORS, dictLookup]

theorem C5_limit_factor_table_witness :
    ((600000 : ℚ) ∉ ([100000, 250000, 500000, 750000, 1000000,
           2000000, 3000000, 4000000, 5000000] : List ℚ)) ∧
    (get_limit_factor 600000 = 1 ∧ limit_warning_issued 600000 = true) :=
  ⟨by norm_num, (C5_limit_factor_table 600000).1 (by norm_num)⟩

/-! ### Unknown schedule keys -/

theorem calc_none_of_no_claims_none (fee : ℚ) (dps : List (String × ℚ)) (l : ℚ)
    (ncp rc : String) (em : ℚ) (aeo : String) (d : ℚ)
    (h : dictLookup ncp NO_CLAIMS_DISCOUNTS = none) :
    calculate_architect_premium fee dps l ncp rc em aeo d = none := by
  unfold calculate_architect_premium
  cases hdf : discipline_fold 0 dps <;> simp [h]

theorem calc_none_of_retro_none (fee : ℚ) (dps : List (String × ℚ)) (l : ℚ)
    (ncp rc : String) (em : ℚ) (aeo : String) (d : ℚ)
    (h : dictLookup rc RETROACTIVE_DISCOUNTS = none) :
    calculate_architect_premium fee dps l ncp rc em aeo d = none := by
  unfold calculate_architect_premium
  cases hdf : discipline_fold 0 dps <;>
    cases hnc : dictLookup ncp NO_CLAIMS_DISCOUNTS <;> simp [h]

theorem calc_none_of_excess_none (fee : ℚ) (dps : List (String × ℚ)) (l : ℚ)
    (ncp rc : String) (em : ℚ) (aeo : String) (d : ℚ)
    (h : dictLookup em EXCESS_MULTIPLIERS = none) :
    calculate_architect_premium fee dps l ncp rc em aeo d = none := by
  unfold calculate_architect_premium
  cases hdf : discipline_fold 0 dps <;>
    cases hnc : dictLookup ncp NO_CLAIMS_DISCOUNTS <;>
      cases hrc : dictLookup rc RETROACTIVE_DISCOUNTS <;> simp [h]

theorem calc_none_of_agg_none (fee : ℚ) (dps : List (String × ℚ)) (l : ℚ)
    (ncp rc : String) (em : ℚ) (aeo : String) (d : ℚ)
    (h : dictLookup aeo AGGREGATE_EXCESS_OPTIONS = none) :
    calculate_architect_premium fee dps l ncp rc em aeo d = none := by
  unfold calculate_architect_premium
  cases hdf : discipline_fold 0 dps <;>
    cases hnc : dictLookup ncp NO_CLAIMS_DISCOUNTS <;>
      cases hrc : dictLookup rc RETROACTIVE_DISCOUNTS <;>
        cases hem : dictLookup em EXCESS_MULTIPLIERS <;> simp [h]

/-- C6: a no-claims tier, retroactive tier, excess multiplier or
aggregate-excess option outside the fixed keys of its schedule makes the
whole call fail (the `KeyError` of the dictionary subscript), rather
than silently defaulting to some discount. -/
theorem C6_unknown_tier_fails (fee : ℚ) (dps : List (String × ℚ)) (l : ℚ)
    (ncp rc : String) (em : ℚ) (aeo : String) (d : ℚ) :
    (ncp ∉ (["0-3 years", "3-5 years", "5-10 years", "10+ years"] : List String) →
      calculate_architect_premium fee dps l ncp rc em aeo d = none) ∧
    (rc ∉ (["Inception", "After 12 months", "2+ years coverage"] : List String) →
      calculate_architect_premium fee dps l ncp rc em aeo d = none) ∧
    (em ∉ ([50/100, 75/100, 1, 2, 3, 4, 5] : List ℚ) →
      calculate_architect_premium fee dps l ncp rc em aeo d = none) ∧
    (aeo ∉ (["standard", "agg_cap_no_thereafter", "agg_cap_reduced_thereafter"] : List String) →
      calculate_architect_premium fee dps l ncp rc em aeo d = none) := by
  refine ⟨fun h => ?_, fun h => ?_, fun h => ?_, fun h => ?_⟩
  · exact calc_none_of_no_claims_none fee dps l ncp rc em aeo d
      (dictLookup_eq_none_of_not_mem _ _ (by simpa [NO_CLAIMS_DISCOUNTS] using h))
  · exact calc_none_of_retro_none fee dps l ncp rc em aeo d
      (dictLookup_eq_none_of_not_mem _ _ (by simpa [RETROACTIVE_DISCOUNTS] using h))
  · exact calc_none_of_excess_none fee dps l ncp rc em aeo d
      (dictLookup_eq_none_of_not_mem _ _ (by simpa [EXCESS_MULTIPLIERS] using h))
  · exact calc_none_of_agg_none fee dps l ncp rc em aeo d
      (dictLookup_eq_none_of_not_mem _ _ (by simpa [AGGREGATE_EXCESS_OPTIONS] using h))

theorem C6_unknown_tier_fails_witness :
    (("volcano insurance" : String) ∉
        (["0-3 years", "3-5 years", "5-10 years", "10+ years"] : List String)) ∧
    calculate_architect_premium 250000 [("Architectural Work - New Build", 100)]
      1000000 "volcano insurance" "2+ years coverage" 1 "standard" 1 = none :=
  ⟨by simp, (C6_unknown_tier_fails 250000 [("Architectural Work - New Build", 100)]
      1000000 "volcano insurance" "2+ years coverage" 1 "standard" 1).1 (by simp)⟩

/-! ### Purity and discretion monotonicity -/

/-- C8: the engine is deterministic and stateless; two calls whose
arguments are pairwise identical return identical result records. -/
theorem C8_deterministic (fee fee' : ℚ) (dps dps' : List (String × ℚ))
    (l l' : ℚ) (ncp ncp' rc rc' : String) (em em' : ℚ) (aeo aeo' : String)
    (d d' : ℚ) (h1 : fee = fee') (h2 : dps = dps') (h3 : l = l')
    (h4 : ncp = ncp') (h5 : rc = rc') (h6 : em = em') (h7 : aeo = aeo')
    (h8 : d = d') :
    calculate_architect_premium fee dps l ncp rc em aeo d =
      calculate_architect_premium fee' dps' l' ncp' rc' em' aeo' d' := by
  subst h1 h2 h3 h4 h5 h6 h7 h8
  rfl

theorem C8_deterministic_witness :
    calculate_architect_premium 250000 [("Architectural Work - New Build", 100)]
        1000000 "0-3 years" "2+ years coverage" 1 "standard" 1 =
      calculate_architect_premium 250000 [("Architectural Work - New Build", 100)]
        1000000 "0-3 years" "2+ years coverage" 1 "standard" 1 :=
  C8_deterministic 250000 250000 _ _ 1000000 1000000 "0-3 years" "0-3 years"
    "2+ years coverage" "2+ years coverage" 1 1 "standard" "standard" 1 1
    rfl rfl rfl rfl rfl rfl rfl rfl

/-- C9: when the premium after the aggregate-excess step is positive,
the final premium is strictly increasing in the underwriter discretion
factor, all other arguments held fixed. -/
theorem C9_discretion_strict_mono (fee : ℚ) (dps : List (String × ℚ)) (l : ℚ)
    (ncp rc : String) (em : ℚ) (aeo : String) (d1 d2 : ℚ)
    (r1 r2 : RatingResult)
    (h1 : calculate_architect_premium fee dps l ncp rc em aeo d1 = some r1)
    (h2 : calculate_architect_premium fee dps l ncp rc em aeo d2 = some r2)
    (hpos : 0 < r1.premium_after_agg_excess) (hd : d1 < d2) :
    r1.final_premium < r2.final_premium := by
  unfold calculate_architect_premium at h1 h2
  cases hdf : discipline_fold 0 dps <;> rw [hdf] at h1 h2 <;>
    simp only [Option.none_bind, Option.some_bind] at h1 h2
  · exact absurd h1 (by simp)
  cases hnc : dictLookup ncp NO_CLAIMS_DISCOUNTS <;> rw [hnc] at h1 h2 <;>
    simp only [Option.none_bind, Option.some_bind] at h1 h2
  · exact absurd h1 (by simp)
  cases hrc : dictLookup rc RETROACTIVE_DISCOUNTS <;> rw [hrc] at h1 h2 <;>
    simp only [Option.none_bind, Option.some_bind] at h1 h2
  · exact absurd h1 (by simp)
  cases hem : dictLookup em EXCESS_MULTIPLIERS <;> rw [hem] at h1 h2 <;>
    simp only [Option.none_bind, Option.some_bind] at h1 h2
  · exact absurd h1 (by simp)
  cases hag : dictLookup aeo AGGREGATE_EXCESS_OPTIONS <;> rw [hag] at h1 h2 <;>
    simp only [Option.none_bind, Option.some_bind] at h1 h2
  · exact absurd h1 (by simp)
  rw [Option.some.injEq] at h1 h2
  subst h1 h2
  simp only at hpos ⊢
  exact mul_lt_mul_of_pos_left hd hpos

theorem C9_discretion_strict_mono_witness :
    baselineResult.final_premium < baselineResultTwice.final_premium :=
  C9_discretion_strict_mono 250000 [("Architectural Work - New Build", 100)]
    1000000 "0-3 years" "2+ years coverage" 1 "standard" 1 2
    baselineResult baselineResultTwice eval_baseline eval_baseline_twice
    (by norm_num [baselineResult]) (by norm_num)

/-! ### Discipline entries with non-positive percentage -/

theorem discipline_fold_filter (dps : List (String × ℚ)) :
    ∀ acc : ℚ, discipline_fold acc dps =
      discipline_fold acc (dps.filter fun e => decide (0 < e.2)) := by
  induction dps with
  | nil => intro acc; rfl
  | cons p rest ih =>
    intro acc
    obtain ⟨name, pct⟩ := p
    by_cases hp : 0 < pct
    · simp only [List.filter_cons, decide_eq_true_eq, if_pos hp]
      cases hl : dictLookup name ARCHITECT_DISCIPLINES <;>
        simp [discipline_fold, hp, hl, ih]
    · simp only [List.filter_cons, decide_eq_true_eq, if_neg hp]
      simp [discipline_fold, hp, ih]

theorem discipline_fold_unknown_none (dps : List (String × ℚ)) (name : String)
    (p : ℚ) (hmem : (name, p) ∈ dps) (hp : 0 < p)
    (hl : dictLookup name ARCHITECT_DISCIPLINES = none) :
    ∀ acc : ℚ, discipline_fold acc dps = none := by
  induction dps with
  | nil => cases hmem
  | cons q rest ih =>
    intro acc
    obtain ⟨d, pct⟩ := q
    rcases List.mem_cons.mp hmem with heq | htail
    · injection heq.symm with hd hpct
      subst hd
      subst hpct
      simp [discipline_fold, hp, hl]
    · by_cases hqp : 0 < pct
      · cases hdl : dictLookup d ARCHITECT_DISCIPLINES <;>
          simp [discipline_fold, hqp, hdl, ih htail]
      · simp [discipline_fold, hqp, ih htail]

theorem calc_none_of_fold_none (fee : ℚ) (dps : List (String × ℚ)) (l : ℚ)
    (ncp rc : String) (em : ℚ) (aeo : String) (d : ℚ)
    (h : discipline_fold 0 dps = none) :
    calculate_architect_premium fee dps l ncp rc em aeo d = none := by
  unfold calculate_architect_premium
  rw [h]
  rfl

/-- C10: discipline entries with non-positive percentage are skipped
before any table lookup, so they never affect the result (dropping an
entry with percentage at most 0, or filtering all of them out, leaves
the result unchanged), while an entry whose discipline name is outside
the 17-name table fails the call exactly when its percentage is
positive. -/
theorem C10_nonpositive_disciplines_skipped (fee : ℚ)
    (dps : List (String × ℚ)) (l : ℚ) (ncp rc : String) (em : ℚ)
    (aeo : String) (d : ℚ) (name : String) (p : ℚ) :
    (calculate_architect_premium fee dps l ncp rc em aeo d =
      calculate_architect_premium fee (dps.filter fun e => decide (0 < e.2))
        l ncp rc em aeo d) ∧
    (p ≤ 0 → calculate_architect_premium fee ((name, p) :: dps) l ncp rc em aeo d =
      calculate_architect_premium fee dps l ncp rc em aeo d) ∧
    ((name, p) ∈ dps → 0 < p → name ∉ ARCHITECT_DISCIPLINES.map Prod.fst →
      calculate_architect_premium fee dps l ncp rc em aeo d = none) := by
  refine ⟨?_, fun hple => ?_, fun hmem hp hname => ?_⟩
  · unfold calculate_architect_premium
    rw [discipline_fold_filter]
  · unfold calculate_architect_premium
    have : discipline_fold 0 ((name, p) :: dps) = discipline_fold 0 dps := by
      simp [discipline_fold, not_lt.mpr hple]
    rw [this]
  · exact calc_none_of_fold_none fee dps l ncp rc em aeo d
      (discipline_fold_unknown_none dps name p hmem hp
        (dictLookup_eq_none_of_not_mem _ _ hname) 0)

theorem C10_nonpositive_disciplines_skipped_witness :
    ((0 : ℚ) ≤ 0 ∧
      calculate_architect_premium 250000
        [("Roller Coaster Design", 0), ("Architectural Work - New Build", 100)]
        1000000 "0-3 years" "2+ years coverage" 1 "standard" 1 =
      calculate_architect_premium 250000 [("Architectural Work - New Build", 100)]
        1000000 "0-3 years" "2+ years coverage" 1 "standard" 1) ∧
    ((("Roller Coaster Design", (50 : ℚ)) ∈
        ([("Roller Coaster Design", 50), ("Architectural Work - New Build", 50)] :
          List (String × ℚ))) ∧
      (0 : ℚ) < 50 ∧
      ("Roller Coaster Design" ∉ ARCHITECT_DISCIPLINES.map Prod.fst) ∧
      calculate_architect_premium 250000
        [("Roller Coaster Design", 50), ("Architectural Work - New Build", 50)]
        1000000 "0-3 years" "2+ years coverage" 1 "standard" 1 = none) :=
  ⟨⟨le_refl 0,
    (C10_nonpositive_disciplines_skipped 250000
        [("Architectural Work - New Build", 100)] 1000000 "0-3 years"
        "2+ years coverage" 1 "standard" 1 "Roller Coaster Design" 0).2.1
      (le_refl 0)⟩,
   ⟨by simp, by norm_num, by simp [ARCHITECT_DISCIPLINES],
    (C10_nonpositive_disciplines_skipped 250000
        [("Roller Coaster Design", 50), ("Architectural Work - New Build", 50)]
        1000000 "0-3 years" "2+ years coverage" 1 "standard" 1
        "Roller Coaster Design" 50).2.2 (by simp) (by norm_num)
      (by simp [ARCHITECT_DISCIPLINES])⟩⟩
